import Mathlib

/-!
Verification development for the `nx-opdep-plugin` repository, a Nx generator
that statically analyzes which declared package dependencies of a project are
actually reachable through its module graph and writes a reduced dependency
report.

The definitions below are a shallow embedding of
`packages/opdep/src/generators/analyze-deps/generator.ts` (the second, current
revision contained in that file, whose `analyzeImport` starts around line 493
and whose `analyzeDepsGenerator` starts around line 745).  External
collaborators (the Nx virtual file tree, the project registry, and the
ts-morph source parser) are modelled as an explicit `World` value holding
parsed documents; JavaScript `Map` and `Set` become association lists and
duplicate-free lists preserving insertion order, mirroring the iteration-order
semantics the code relies on.  Node `path` functions are modelled for the
POSIX path shapes this code produces (absolute paths, `./`-relative
specifiers, bare specifiers); `..` segments are not used by any analyzed
scenario and are left unnormalized.
-/

namespace Opdep

/-- Model of `s.startsWith(pre)`, computed on the underlying character lists (all the
analyzed strings are ASCII). -/
def strStartsWith (s pre : String) : Bool :=
  pre.data.isPrefixOf s.data

/-- Model of `s.endsWith(suf)`, computed on the underlying character lists. -/
def strEndsWith (s suf : String) : Bool :=
  suf.data.reverse.isPrefixOf s.data.reverse

/-- Model of `s.slice(n)`: drop the first `n` characters. -/
def strDrop (s : String) (n : Nat) : String :=
  ⟨s.data.drop n⟩

/-- Model of Node `path.resolve(dir, p)` for the argument shapes occurring in
the generator: an absolute `p` is returned unchanged, a leading `./` is
normalized away, and any other specifier is joined onto `dir` with a slash. -/
def pathResolve (dir p : String) : String :=
  if strStartsWith p "/" then p
  else if strStartsWith p "./" then dir ++ "/" ++ strDrop p 2
  else dir ++ "/" ++ p

/-- Model of Node `path.join(a, b)` for the shapes occurring in the generator
(`b` empty, absolute, or a plain relative segment). -/
def pathJoin (a b : String) : String :=
  if b == "" then a
  else if strStartsWith b "/" then a ++ b
  else a ++ "/" ++ b

/-- Model of Node `path.dirname` on slash-separated paths without trailing
slashes: everything before the final `/`, with `.` when there is none and `/`
when only the leading slash remains. -/
def pathDirname (p : String) : String :=
  let r := p.data.reverse
  if r.contains '/' then
    let d := (r.dropWhile (fun c => !(c == '/'))).drop 1
    if d.isEmpty then "/" else ⟨d.reverse⟩
  else "." 

/-- Model of the JavaScript expression `s.replace("/\x2a", "")`: remove the
first occurrence of the two-character substring `/\x2a` (slash followed by an
asterisk), as used to strip the wildcard from alias keys and target
templates. -/
def removeFirstSlashStar : List Char → List Char
  | [] => []
  | '/' :: '*' :: rest => rest
  | c :: rest => c :: removeFirstSlashStar rest

/-- See `removeFirstSlashStar`. -/
def stripSlashStar (s : String) : String :=
  ⟨removeFirstSlashStar s.data⟩

/-- JavaScript `Set`-style insertion into a duplicate-free list that preserves
first-insertion order. -/
def setAdd (l : List String) (x : String) : List String :=
  if l.contains x then l else l ++ [x]

/-- Order-preserving de-duplication, the effect of `[...new Set(paths)]`. -/
def dedupKeepFirst (l : List String) : List String :=
  l.foldl setAdd []

/-- The `externalImports.set(spec, new Set())` step: create the map entry if it
is not present yet (JavaScript `Map` keeps first-insertion key order). -/
def ensureExternalKey (m : List (String × List String)) (k : String) :
    List (String × List String) :=
  if (List.lookup k m).isSome then m else m ++ [(k, [])]

/-- Adding one binding name to the `Set` stored under key `k`. -/
def addExternalBinding (m : List (String × List String)) (k b : String) :
    List (String × List String) :=
  m.map (fun kv => if kv.1 == k then (kv.1, setAdd kv.2 b) else kv)

/-- The external-import recording step of `analyzeImport`: ensure the map entry
for the (full) module specifier exists, then add every named binding of the
current declaration to its set. -/
def recordExternal (m : List (String × List String)) (k : String)
    (bs : List String) : List (String × List String) :=
  bs.foldl (fun acc b => addExternalBinding acc k b) (ensureExternalKey m k)

/-- Kind of a ts-morph declaration handed to `analyzeImport`: a genuine
`ImportDeclaration`, or an `ExportDeclaration` that the source casts to
`ImportDeclaration` via `as any`. -/
inductive RefKind where
  | importDecl : RefKind
  | exportDecl : RefKind
deriving DecidableEq, Repr

/-- A module reference (an `ImportDeclaration` or an `ExportDeclaration`
carrying a module specifier).  `namedImports` models
`getNamedImports().map(n => n.getName())` of an `ImportDeclaration`;
`namespaceExport` models `isNamespaceExport()` of an `ExportDeclaration`. -/
structure ModuleRef where
  specifier : String
  kind : RefKind := .importDecl
  namedImports : List String := []
  namespaceExport : Bool := false
deriving DecidableEq, Repr

/-- Runtime failures the walk can raise (JavaScript `TypeError`s). -/
inductive RtError where
  /-- Raised when `getNamedImports` is called on an `ExportDeclaration` that was cast with
  `as any`: the method does not exist on that class, so the call throws. -/
  | namedImportsOnExport : RtError
  /-- Raised when `paths[matchingAlias][0]` is `undefined` because the alias maps to an
  empty target array, so `.replace` throws. -/
  | emptyAliasTargets : RtError
deriving DecidableEq, Repr

/-- Model of `importDecl ? importDecl.getNamedImports().map(...) : []`.  The
declaration parameter is typed `ImportDeclaration` but the call sites also pass
`ExportDeclaration` values cast with `as any`; at runtime those lack
`getNamedImports`, so the call throws a `TypeError`. -/
def getNamedImportsOf : Option ModuleRef → Except RtError (List String)
  | none => .ok []
  | some r =>
    match r.kind with
    | .importDecl => .ok r.namedImports
    | .exportDecl => .error .namedImportsOnExport

/-- A parsed source module as seen through ts-morph: its file path, its
`getImportDeclarations()` and, of its `getExportDeclarations()`, those carrying
a module specifier (the code guards every export with
`if (exportModuleSpecifier)`). -/
structure SourceFile where
  path : String
  importDecls : List ModuleRef := []
  exportDecls : List ModuleRef := []
deriving DecidableEq, Repr

/-- Model of `project.getSourceFile(path)`: look a file up among the files loaded into a
ts-morph project. -/
def getSourceFile (proj : List SourceFile) (p : String) : Option SourceFile :=
  proj.find? (fun sf => sf.path == p)

/-- The parsed `package.json` shape the generator reads. -/
structure PackageJson where
  name : String := ""
  version : String := ""
  dependencies : List (String × String) := []
  devDependencies : List (String × String) := []
  peerDependencies : List (String × String) := []
deriving DecidableEq, Repr

/-- The two fields of a tsconfig document that `mergeTsConfigs` reads: the
optional `extends` reference and the optional `compilerOptions.paths` map. -/
structure TsConfigRaw where
  extendsRef : Option String := none
  paths : Option (List (String × List String)) := none
deriving DecidableEq, Repr

/-- Content of a tsconfig file slot in the tree: either a document that
`JSON.parse` accepts or one on which it throws. -/
inductive TsConfigFileVal where
  | malformed : TsConfigFileVal
  | parsed : TsConfigRaw → TsConfigFileVal
deriving DecidableEq, Repr

/-- A project-registry entry as returned by `getProjects`. -/
structure ProjectConfig where
  root : String
  projectType : String := "application"
deriving DecidableEq, Repr

/-- The external collaborators of one generator invocation: the project
registry, the parsed `package.json` documents by path, the tsconfig documents
by path, the set of all file paths (backing `children`/`isFile`/`exists` of
the Nx tree), and the source modules the ts-morph parser can load. -/
structure World where
  projects : List (String × ProjectConfig) := []
  manifests : List (String × PackageJson) := []
  tsconfigs : List (String × TsConfigFileVal) := []
  fs : List String := []
  sources : List SourceFile := []
deriving DecidableEq, Repr

/-- Model of `tree.isFile(p)`. -/
def treeIsFile (w : World) (p : String) : Bool :=
  w.fs.contains p

/-- Model of `tree.exists(p)`: true for a file or for a directory that some file path
extends. -/
def treeExists (w : World) (p : String) : Bool :=
  w.fs.contains p || w.fs.any (fun q => strStartsWith q (p ++ "/"))

/-- Model of `tree.children(dir)`: the distinct first path segments of the entries under
`dir`, in the order the backing store lists them. -/
def treeChildren (w : World) (dir : String) : List String :=
  dedupKeepFirst (w.fs.filterMap (fun p =>
    if strStartsWith p (dir ++ "/") then
      some ⟨(strDrop p (dir.length + 1)).data.takeWhile (fun c => !(c == '/'))⟩
    else none))

/-- The regex `tsconfig.*\.json` anchored at both ends, applied to a file
name. -/
def isTsConfigName (n : String) : Bool :=
  strStartsWith n "tsconfig" && strEndsWith n ".json"

/-- The recursive helper `searchInDirectory` of `findAllTsConfigFiles`: walk
the tree depth first, collecting files whose name matches the tsconfig
pattern.  The walk is given fuel; each recursion step descends into a strictly
longer directory path, so any fuel exceeding the longest stored path is enough
to reproduce the JavaScript recursion exactly. -/
def searchInDirectory (w : World) : Nat → String → List String
  | 0, _ => []
  | fuel + 1, dirPath =>
    (treeChildren w dirPath).foldl (fun acc entry =>
      let fullPath := pathJoin dirPath entry
      if treeIsFile w fullPath && isTsConfigName entry then acc ++ [fullPath]
      else if treeExists w fullPath && !treeIsFile w fullPath then
        acc ++ searchInDirectory w fuel fullPath
      else acc) []

/-- Fuel that dominates the depth of any directory recursion over `w.fs`. -/
def fsFuel (w : World) : Nat :=
  1 + w.fs.foldl (fun m p => max m p.length) 0

/-- Translation of `findAllTsConfigFiles`: the root-level scan (which the subsequent
`searchInDirectory(projectRoot)` call repeats, so root-level tsconfig files
appear twice in the returned list) followed by the depth-first search. -/
def findAllTsConfigFiles (w : World) (projectRoot : String) : List String :=
  let rootLevel := (treeChildren w projectRoot).foldl (fun acc entry =>
    if treeIsFile w (pathJoin projectRoot entry) && isTsConfigName entry then
      acc ++ [pathJoin projectRoot entry]
    else acc) []
  rootLevel ++ searchInDirectory w (fsFuel w) projectRoot

/-- Model of `path.isAbsolute(p) ? p : path.resolve(dir, p)` mapped over a target
list. -/
def resolveTargets (dir : String) (ts : List String) : List String :=
  ts.map (fun p => if strStartsWith p "/" then p else pathResolve dir p)

/-- One `Object.entries(...).forEach` pass of `mergeTsConfigs`:
`allPaths[key] = [...(allPaths[key] || []), ...resolvedPaths]`.  An existing
key keeps its position and its accumulated list is extended; a new key is
appended. -/
def appendPaths (all : List (String × List String)) (dir : String)
    (entries : List (String × List String)) : List (String × List String) :=
  entries.foldl (fun acc kv =>
    let resolved := resolveTargets dir kv.2
    match List.lookup kv.1 acc with
    | some old => acc.map (fun e => if e.1 == kv.1 then (e.1, old ++ resolved) else e)
    | none => acc ++ [(kv.1, resolved)]) all

/-- The body of the `try` block of `mergeTsConfigs` for one configuration
file, acting on the accumulated `allPaths` table.  A read or parse failure
anywhere inside the block is caught by the surrounding `catch`, which logs a
warning and leaves the table as it was before this file (no mutation happens
before the failing read).  When the file has an `extends` reference to an
existing file, the base file's `paths` entries are appended first (resolved
against the base file's directory); afterwards the file's own `paths` entries
are appended (resolved against its own directory). -/
def processTsConfigFile (w : World) (all : List (String × List String))
    (configFile : String) : List (String × List String) × Option String :=
  match List.lookup configFile w.tsconfigs with
  | none => (all, some ("Failed to parse TypeScript config at " ++ configFile))
  | some .malformed => (all, some ("Failed to parse TypeScript config at " ++ configFile))
  | some (.parsed cfg) =>
    let configDir := pathDirname configFile
    let afterExtends : Except String (List (String × List String)) :=
      match cfg.extendsRef with
      | none => .ok all
      | some ext =>
        let extendsPath := pathResolve configDir ext
        if treeExists w extendsPath then
          match List.lookup extendsPath w.tsconfigs with
          | none => .error ("Failed to parse TypeScript config at " ++ configFile)
          | some .malformed => .error ("Failed to parse TypeScript config at " ++ configFile)
          | some (.parsed base) =>
            match base.paths with
            | none => .ok all
            | some bp => .ok (appendPaths all (pathDirname extendsPath) bp)
        else .ok all
    match afterExtends with
    | .error msg => (all, some msg)
    | .ok all1 =>
      match cfg.paths with
      | none => (all1, none)
      | some own => (appendPaths all1 configDir own, none)

/-- Translation of `mergeTsConfigs`, projected onto the only part of its result the analysis
reads: the final `compilerOptions.paths` table, which line 469 of the source
rebuilds wholesale from `allPaths` with each target list de-duplicated by
`new Set`.  (The `deepMerge` of the remaining compiler options only feeds the
ts-morph project construction, an external collaborator.)  Also returns the
warnings logged for unparsable layers. -/
def mergeTsConfigs (w : World) (configFiles : List String) :
    List (String × List String) × List String :=
  let res := configFiles.foldl (fun acc f =>
    let step := processTsConfigFile w acc.1 f
    (step.1, acc.2 ++ step.2.toList)) ([], [])
  (res.1.map (fun kv => (kv.1, dedupKeepFirst kv.2)), res.2)

/-- A workspace library entry. -/
structure WorkspaceLibrary where
  name : String
  root : String
deriving DecidableEq, Repr

/-- Translation of `getWorkspaceLibraries`: every registry project whose `projectType` is
`library`, in registry order. -/
def getWorkspaceLibraries (w : World) : List WorkspaceLibrary :=
  w.projects.foldl (fun acc nc =>
    if nc.2.projectType == "library" then acc ++ [⟨nc.1, nc.2.root⟩] else acc) []

/-- The test-file name patterns excluded by the `addSourceFilesAtPaths` globs
(`**/\x2a.spec.ts` and friends match at any depth). -/
def isTestFileName (p : String) : Bool :=
  strEndsWith p ".spec.ts" || strEndsWith p ".test.ts" ||
  strEndsWith p ".spec.tsx" || strEndsWith p ".test.tsx"

/-- Whether `p` lies under the directory `sub` sitting directly at the top of
`root`, which is what the exclusion glob `root/sub/\x2a\x2a/\x2a` matches. -/
def underTopLevelDir (root sub p : String) : Bool :=
  strStartsWith p (root ++ "/" ++ sub ++ "/")

/-- The combined include/exclude glob set handed to `addSourceFilesAtPaths`:
`.ts`/`.tsx` files anywhere under `root`, minus the top-level `node_modules`,
`dist` and `build` directories of `root`, minus test-named files at any
depth. -/
def matchesSourceGlobs (root p : String) : Bool :=
  strStartsWith p (root ++ "/") &&
  (strEndsWith p ".ts" || strEndsWith p ".tsx") &&
  !underTopLevelDir root "node_modules" p &&
  !underTopLevelDir root "dist" p &&
  !underTopLevelDir root "build" p &&
  !isTestFileName p

/-- Model of `project.addSourceFilesAtPaths([...])`: the source modules whose paths the
glob set accepts, in store order. -/
def enumerateSources (w : World) (root : String) : List SourceFile :=
  w.sources.filter (fun sf => matchesSourceGlobs root sf.path)

/-- The ways a run can reject. -/
inductive GenError where
  /-- Thrown as `Project NAME not found in workspace`. -/
  | projectNotFound : String → GenError
  /-- an uncaught `readJsonFromTree` failure at the given path. -/
  | fileReadFailed : String → GenError
  /-- Thrown as `No package.json found for project at ROOT`. -/
  | noPackageJson : String → GenError
  /-- an uncaught JavaScript runtime error thrown inside the walk. -/
  | runtime : RtError → GenError
deriving DecidableEq, Repr

/-- Translation of `findPackageJson`: look for `package.json` at the project root, then at
the workspace root.  A slot that exists in the tree but yields no parsed
document models `readJsonFromTree` throwing (file unreadable), which nothing
catches. -/
def findPackageJson (w : World) (startPath : String) :
    Except GenError (Option PackageJson) :=
  let projPath := pathJoin startPath "package.json"
  if treeExists w projPath then
    match List.lookup projPath w.manifests with
    | some pj => .ok (some pj)
    | none => .error (.fileReadFailed projPath)
  else
    if treeExists w "/package.json" then
      match List.lookup "/package.json" w.manifests with
      | some pj => .ok (some pj)
      | none => .error (.fileReadFailed "/package.json")
    else .ok none

/-- Translation of `analyzeProjectDependencies` together with the module-scoped
`dependencyCache`: the cache is a `Map` created once per *process*, so it is
threaded in and out explicitly; a hit skips the manifest lookup entirely. -/
def analyzeProjectDependencies (w : World) (cache : List (String × PackageJson))
    (projectRoot : String) :
    Except GenError (PackageJson × List (String × PackageJson)) :=
  match List.lookup projectRoot cache with
  | some pj => .ok (pj, cache)
  | none =>
    match findPackageJson w projectRoot with
    | .error e => .error e
    | .ok none => .error (.noPackageJson projectRoot)
    | .ok (some pj) => .ok (pj, cache ++ [(projectRoot, pj)])

/-- The shared `DependencyAnalysis` record mutated by the walk: a `Map` from
external package specifier to the `Set` of binding names, and the two `Set`s
of internal specifiers, all in insertion order. -/
structure DependencyAnalysis where
  externalImports : List (String × List String) := []
  internalImports : List String := []
  internalAliasImports : List String := []
deriving DecidableEq, Repr

/-- The mutable state threaded through `analyzeImport`: the analysis record,
the `analyzedPaths` visited set, and the warnings logged so far. -/
structure WalkState where
  analysis : DependencyAnalysis := {}
  analyzedPaths : List String := []
  warnings : List String := []
deriving DecidableEq, Repr

/-- Result of one walk step: the state at return (or at the point an exception
was thrown), plus the exception if one is propagating.  JavaScript exceptions
do not roll back mutations, so the state is carried alongside the error. -/
abbrev StepResult := WalkState × Option RtError

/-- The `context` object handed through every `analyzeImport` call.  Of the
merged tsconfig the walk only ever reads `compilerOptions.paths`, which is the
`tsConfigPaths` field here. -/
structure AnalyzeContext where
  packageJson : PackageJson
  tsConfigPaths : List (String × List String)
  workspaceLibs : List WorkspaceLibrary
  tree : World
  tsConfigPath : String
deriving DecidableEq, Repr

/-- The constant `MAX_RECURSION_DEPTH` from the source. -/
def MAX_RECURSION_DEPTH : Nat := 50

/-- The alias resolution of the `@`-branch of `analyzeImport`, given the first
target template `t0` of the matching alias entry: strip the wildcard from the
template, resolve it against the directory of the tsconfig file, strip the
wildcard from the alias key, and join the specifier's remainder onto the
resolved target. -/
def aliasFullPath (tsConfigPath aliasKey spec t0 : String) : String :=
  let aliasRelative := stripSlashStar t0
  let tsconfigDir := pathDirname tsConfigPath
  let aliasPath := pathResolve tsconfigDir aliasRelative
  let aliasHead := stripSlashStar aliasKey
  let relativePath := if strStartsWith spec aliasHead then strDrop spec aliasHead.length else ""
  pathJoin aliasPath relativePath

/-- One iteration of a `for (const subImport of ...)` loop: with an exception
propagating nothing further runs, otherwise the reference is analyzed with the
decl's own project. -/
def stepRef
    (go : String → WalkState → String → Option ModuleRef → Option (List SourceFile) → StepResult)
    (bd : String) (proj : List SourceFile) (acc : StepResult) (r : ModuleRef) :
    StepResult :=
  match acc.2 with
  | some _ => acc
  | none => go r.specifier acc.1 bd (some r) (some proj)

/-- Exploring a resolved module in the relative and alias branches: its import
declarations, then its export declarations with a specifier, then (again) the
namespace exports among them, all at the next depth. -/
def exploreModule
    (go : String → WalkState → String → Option ModuleRef → Option (List SourceFile) → StepResult)
    (projFiles : List SourceFile) (sf : SourceFile) (st : WalkState) : StepResult :=
  let newBaseDir := pathDirname sf.path
  let r1 := sf.importDecls.foldl (stepRef go newBaseDir projFiles) (st, none)
  let r2 := sf.exportDecls.foldl (stepRef go newBaseDir projFiles) r1
  let stars := sf.exportDecls.filter (fun e => e.namespaceExport)
  stars.foldl (stepRef go newBaseDir projFiles) r2

/-- The loop over an expanded workspace library's source files: for each file,
its import declarations then its export declarations (no separate namespace
pass here), rooted at the library file's directory and looked up in the
library's own freshly created project. -/
def exploreLibFiles
    (go : String → WalkState → String → Option ModuleRef → Option (List SourceFile) → StepResult)
    (libFiles : List SourceFile) (start : StepResult) : StepResult :=
  libFiles.foldl (fun acc sf =>
    match acc.2 with
    | some _ => acc
    | none =>
      let libBaseDir := pathDirname sf.path
      let r1 := sf.importDecls.foldl (stepRef go libBaseDir libFiles) acc
      sf.exportDecls.foldl (stepRef go libBaseDir libFiles) r1) start

/-- Translation of `analyzeImport`.  The fuel argument is `MAX_RECURSION_DEPTH + 1 - depth`:
the source's guard `depth > MAX_RECURSION_DEPTH` (log a warning, stop the
branch) is exactly the `0` case, and every recursive call at `depth + 1`
becomes a call at `fuel - 1`.  The `proj` argument models
`importDecl?.getSourceFile().getProject()`, the ts-morph project owning the
declaration; every call site passes it alongside the declaration. -/
def analyzeImport (ctx : AnalyzeContext) :
    Nat → String → WalkState → String → Option ModuleRef →
    Option (List SourceFile) → StepResult
  | 0, spec, st, _, _, _ =>
    ({ st with warnings := st.warnings ++
        ["Max recursion depth (50) exceeded: " ++ spec] }, none)
  | fuel + 1, spec, st, baseDir, decl, proj =>
    let fullPath := pathResolve baseDir spec
    if st.analyzedPaths.contains fullPath then (st, none)
    else
      let st1 := { st with analyzedPaths := st.analyzedPaths ++ [fullPath] }
      if strStartsWith spec "." then
        let absolutePath := pathResolve baseDir spec
        if !st1.analyzedPaths.contains absolutePath then
          let st2 := { st1 with
            analyzedPaths := st1.analyzedPaths ++ [absolutePath],
            analysis := { st1.analysis with
              internalImports := setAdd st1.analysis.internalImports spec } }
          match proj with
          | none => (st2, none)
          | some projFiles =>
            match (getSourceFile projFiles (absolutePath ++ ".ts")).orElse
                (fun _ => getSourceFile projFiles (absolutePath ++ ".tsx")) with
            | none => (st2, none)
            | some sf =>
              exploreModule
                (fun s t bd d p => analyzeImport ctx fuel s t bd d p)
                projFiles sf st2
        else (st1, none)
      else if strStartsWith spec "@" then
        match ctx.tsConfigPaths.find? (fun kv => strStartsWith spec (stripSlashStar kv.1)) with
        | some kv =>
          let st2 := { st1 with analysis := { st1.analysis with
              internalAliasImports := setAdd st1.analysis.internalAliasImports spec } }
          match kv.2.head? with
          | none => (st2, some .emptyAliasTargets)
          | some t0 =>
            let fullPath2 := aliasFullPath ctx.tsConfigPath kv.1 spec t0
            match proj with
            | none => (st2, none)
            | some projFiles =>
              match (getSourceFile projFiles (fullPath2 ++ ".ts")).orElse
                  (fun _ => getSourceFile projFiles (fullPath2 ++ ".tsx")) with
              | none => (st2, none)
              | some sf =>
                exploreModule
                  (fun s t bd d p => analyzeImport ctx fuel s t bd d p)
                  projFiles sf st2
        | none =>
          match ctx.workspaceLibs.find? (fun lib =>
              strStartsWith spec ("@" ++ lib.name ++ "/") || spec == "@" ++ lib.name) with
          | some lib =>
            let st2 := { st1 with analysis := { st1.analysis with
                internalImports := setAdd st1.analysis.internalImports spec } }
            let tsFiles := findAllTsConfigFiles ctx.tree lib.root
            let merged := mergeTsConfigs ctx.tree tsFiles
            let st3 := { st2 with warnings := st2.warnings ++ merged.2 }
            let libFiles := enumerateSources ctx.tree lib.root
            let res := exploreLibFiles
              (fun s t bd d p => analyzeImport ctx fuel s t bd d p)
              libFiles (st3, none)
            match res.2 with
            | some _ =>
              ({ res.1 with warnings := res.1.warnings ++
                  ["Failed to analyze workspace library " ++ lib.name] }, none)
            | none => res
          | none =>
            if ctx.workspaceLibs.any (fun lib =>
                strStartsWith spec ("@" ++ lib.name ++ "/") || spec == "@" ++ lib.name) then
              ({ st1 with analysis := { st1.analysis with
                  internalImports := setAdd st1.analysis.internalImports spec } }, none)
            else
              match getNamedImportsOf decl with
              | .error e => (st1, some e)
              | .ok names =>
                ({ st1 with analysis := { st1.analysis with
                    externalImports := recordExternal st1.analysis.externalImports spec names } },
                  none)
      else
        match getNamedImportsOf decl with
        | .error e => (st1, some e)
        | .ok names =>
          ({ st1 with analysis := { st1.analysis with
              externalImports := recordExternal st1.analysis.externalImports spec names } },
            none)

/-- The generator's option object (`AnalyzeDepsGeneratorSchema`).  Besides
`projectName`, the schema declares an `outputPath` (default
`optimized-package.json`, described as the location of the generated report)
and further options; the generator body reads none of them. -/
structure AnalyzeDepsGeneratorSchema where
  projectName : String
  outputPath : Option String := none
  targetLibs : List String := []
  internalModulePatterns : List String := []
deriving DecidableEq, Repr

/-- The report the generator writes (plus where it writes it and the warnings
it logged).  `analysis.externalImports` serializes the `Map` of `Set`s in
insertion order, - exactly the association lists of the walk state. -/
structure RunOutput where
  writtenPath : String
  dependencies : List (String × String)
  devDependencies : List (String × String)
  analysisExternalImports : List (String × List String)
  analysisInternalImports : List String
  analysisInternalAliasImports : List String
  warnings : List String
deriving DecidableEq, Repr

/-- JavaScript truthiness of `obj && obj[key]` for a string-valued record: the
key must be present and its value must not be the empty string. -/
def truthyLookup (m : List (String × String)) (k : String) : Option String :=
  match List.lookup k m with
  | some v => if v == "" then none else some v
  | none => none

/-- The manifest reducer of `analyzeDepsGenerator`: walk the keys of
`externalImports` in insertion order, copying each into `usedDependencies` when
it is a (truthy) key of `dependencies`, otherwise into `usedDevDependencies`
when it is a (truthy) key of `devDependencies`, otherwise dropping it. -/
def reduceManifest (pj : PackageJson) (ext : List (String × List String)) :
    List (String × String) × List (String × String) :=
  ext.foldl (fun acc kv =>
    match truthyLookup pj.dependencies kv.1 with
    | some v => (acc.1 ++ [(kv.1, v)], acc.2)
    | none =>
      match truthyLookup pj.devDependencies kv.1 with
      | some v => (acc.1, acc.2 ++ [(kv.1, v)])
      | none => acc) ([], [])

/-- Translation of `analyzeDepsGenerator`.  The module-level `dependencyCache` persists for
the lifetime of the process, so it is passed in and returned; a fresh process
corresponds to the empty cache.  The returned `RunOutput` is the report
written by `writeJsonToTree` together with its path. -/
def analyzeDepsGenerator (w : World) (cache : List (String × PackageJson))
    (options : AnalyzeDepsGeneratorSchema) :
    Except GenError (RunOutput × List (String × PackageJson)) :=
  match List.lookup options.projectName w.projects with
  | none => .error (.projectNotFound options.projectName)
  | some project =>
    let projectRoot := project.root
    match analyzeProjectDependencies w cache projectRoot with
    | .error e => .error e
    | .ok (packageJson, cacheAfter) =>
      let tsConfigFiles := findAllTsConfigFiles w projectRoot
      let merged := mergeTsConfigs w tsConfigFiles
      let tsConfigPath := tsConfigFiles.head?.getD (pathJoin projectRoot "tsconfig.json")
      let projFiles := enumerateSources w projectRoot
      let workspaceLibs := getWorkspaceLibraries w
      let ctx : AnalyzeContext :=
        { packageJson := packageJson, tsConfigPaths := merged.1,
          workspaceLibs := workspaceLibs, tree := w, tsConfigPath := tsConfigPath }
      let st0 : WalkState := { warnings := merged.2 }
      let res := projFiles.foldl (fun acc sf =>
        match acc.2 with
        | some _ => acc
        | none =>
          let baseDir := pathDirname sf.path
          let r1 := sf.importDecls.foldl
            (stepRef (fun s t bd d p =>
              analyzeImport ctx (MAX_RECURSION_DEPTH + 1) s t bd d p)
              baseDir projFiles) acc
          sf.exportDecls.foldl
            (stepRef (fun s t bd d p =>
              analyzeImport ctx (MAX_RECURSION_DEPTH + 1) s t bd d p)
              baseDir projFiles) r1) (st0, (none : Option RtError))
      match res.2 with
      | some e => .error (.runtime e)
      | none =>
        let analysis := res.1.analysis
        let used := reduceManifest packageJson analysis.externalImports
        let outputPath := pathJoin projectRoot "opdep.json"
        .ok ({ writtenPath := outputPath,
               dependencies := used.1,
               devDependencies := used.2,
               analysisExternalImports := analysis.externalImports,
               analysisInternalImports := analysis.internalImports,
               analysisInternalAliasImports := analysis.internalAliasImports,
               warnings := res.1.warnings }, cacheAfter)

/-- A fragment of JSON large enough to express the written report. -/
inductive Json where
  | str : String → Json
  | arr : List Json → Json
  | obj : List (String × Json) → Json
deriving Repr

/-- The object literal serialized by `writeJsonToTree(tree, outputPath,
output)` at the end of the run. -/
def jsonOfOutput (o : RunOutput) : Json :=
  .obj
    [("dependencies", .obj (o.dependencies.map (fun kv => (kv.1, Json.str kv.2)))),
     ("devDependencies", .obj (o.devDependencies.map (fun kv => (kv.1, Json.str kv.2)))),
     ("analysis", .obj
       [("externalImports", .obj (o.analysisExternalImports.map
           (fun kv => (kv.1, Json.arr (kv.2.map Json.str))))),
        ("internalImports", .arr (o.analysisInternalImports.map Json.str)),
        ("internalAliasImports", .arr (o.analysisInternalAliasImports.map Json.str))])]

/-- The top-level keys of a JSON object. -/
def jsonTopKeys : Json → List String
  | .obj fields => fields.map Prod.fst
  | _ => []

/-- Projection helpers for stating facts about completed runs. -/
def runOut (r : Except GenError (RunOutput × List (String × PackageJson))) :
    Option RunOutput :=
  match r with
  | .ok (o, _) => some o
  | .error _ => none

/-- The cache state after a run (unchanged when the run rejects). -/
def runCacheAfter (init : List (String × PackageJson))
    (r : Except GenError (RunOutput × List (String × PackageJson))) :
    List (String × PackageJson) :=
  match r with
  | .ok (_, c) => c
  | .error _ => init

/-! Concrete scenario worlds used to settle the claims. -/

/-- The scoped-package scenario from the spec and the repository's own test:
the manifest declares `@scope/package` and `@other/unused`, and the single
entry module imports both `@scope/package` and `@scope/package/submodule`. -/
def scopedWorld : World :=
  { projects := [("scoped-test", { root := "/apps/scoped-test" })],
    manifests := [("/apps/scoped-test/package.json",
      { name := "scoped-test", version := "1.0.0",
        dependencies := [("@scope/package", "^1.0.0"), ("@other/unused", "^1.0.0")] })],
    fs := ["/apps/scoped-test/package.json", "/apps/scoped-test/src/index.ts"],
    sources := [{ path := "/apps/scoped-test/src/index.ts",
                  importDecls :=
                    [{ specifier := "@scope/package", namedImports := ["something"] },
                     { specifier := "@scope/package/submodule", namedImports := ["other"] }] }] }

/-- Options naming the scoped project, with the configured output path the
tests use. -/
def scopedOptions : AnalyzeDepsGeneratorSchema :=
  { projectName := "scoped-test", outputPath := some "optimized-package.json" }

/-- The relative-chain scenario of the spec's testable property: the entry
module imports `./a`, and `./a` re-exports from `lodash`, which the manifest
declares. -/
def relChainWorld : World :=
  { projects := [("relchain", { root := "/apps/relchain" })],
    manifests := [("/apps/relchain/package.json",
      { name := "relchain", version := "1.0.0",
        dependencies := [("lodash", "^4.17.0")] })],
    fs := ["/apps/relchain/package.json", "/apps/relchain/src/index.ts",
           "/apps/relchain/src/a.ts"],
    sources :=
      [{ path := "/apps/relchain/src/index.ts",
         importDecls := [{ specifier := "./a", namedImports := ["a"] }] },
       { path := "/apps/relchain/src/a.ts",
         exportDecls := [{ specifier := "lodash", kind := .exportDecl }] }] }

/-- Options for the relative-chain scenario. -/
def relChainOptions : AnalyzeDepsGeneratorSchema := { projectName := "relchain" }

/-- A variant of the relative-chain world whose chain ends in a plain import
instead of a re-export. -/
def relChainImportWorld : World :=
  { relChainWorld with sources :=
      [{ path := "/apps/relchain/src/index.ts",
         importDecls := [{ specifier := "./a", namedImports := ["a"] }] },
       { path := "/apps/relchain/src/a.ts",
         importDecls := [{ specifier := "lodash", namedImports := ["map"] }] }] }

/-- A cyclic module graph reached through live (alias) resolution: `a.ts`
imports `@app/b` and `b.ts` imports `@app/a`, with the alias table mapping
`@app/\x2a` into `src`. -/
def aliasCycleWorld : World :=
  { projects := [("cyclic", { root := "/p" })],
    manifests := [("/p/package.json",
      { name := "cyclic", version := "1.0.0",
        dependencies := [("react", "^17.0.0")] })],
    tsconfigs := [("/p/tsconfig.json",
      .parsed { paths := some [("@app/*", ["src/*"])] })],
    fs := ["/p/package.json", "/p/tsconfig.json", "/p/src/a.ts", "/p/src/b.ts"],
    sources :=
      [{ path := "/p/src/a.ts",
         importDecls := [{ specifier := "@app/b", namedImports := ["b"] }] },
       { path := "/p/src/b.ts",
         importDecls := [{ specifier := "@app/a", namedImports := ["a"] }] }] }

/-- Options for the cyclic world. -/
def aliasCycleOptions : AnalyzeDepsGeneratorSchema := { projectName := "cyclic" }

/-- A two-layer alias configuration: the project tsconfig extends a base file,
and both define the alias key `@a/\x2a`, with different targets. -/
def layeredTsWorld : World :=
  { tsconfigs :=
      [("/p/tsconfig.json",
        .parsed { extendsRef := some "/base/tsconfig.base.json",
                  paths := some [("@a/*", ["/p/local/*"])] }),
       ("/base/tsconfig.base.json",
        .parsed { paths := some [("@a/*", ["/base/inherited/*"])] })],
    fs := ["/p/tsconfig.json", "/base/tsconfig.base.json"] }

/-- A world whose entry module imports a specifier starting with `/`. -/
def slashWorld : World :=
  { projects := [("slash", { root := "/apps/slash" })],
    manifests := [("/apps/slash/package.json",
      { name := "slash", version := "1.0.0" })],
    fs := ["/apps/slash/package.json", "/apps/slash/src/index.ts"],
    sources := [{ path := "/apps/slash/src/index.ts",
                  importDecls := [{ specifier := "/abs/mod", namedImports := ["x"] }] }] }

/-- Options for the slash world. -/
def slashOptions : AnalyzeDepsGeneratorSchema := { projectName := "slash" }

/-- First run's world for the cache scenarios: a normal project with a
manifest. -/
def cacheWorldV1 : World :=
  { projects := [("cached", { root := "/p6" })],
    manifests := [("/p6/package.json",
      { name := "cached", version := "1.0.0",
        dependencies := [("react", "^17.0.0")] })],
    fs := ["/p6/package.json", "/p6/src/index.ts"],
    sources := [{ path := "/p6/src/index.ts",
                  importDecls := [{ specifier := "react", namedImports := ["useState"] }] }] }

/-- The same tree after `package.json` has been deleted. -/
def cacheWorldGone : World :=
  { cacheWorldV1 with manifests := [], fs := ["/p6/src/index.ts"] }

/-- The same tree after `package.json` has been edited to require
`react@^18.0.0`. -/
def cacheWorldV2 : World :=
  { cacheWorldV1 with manifests := [("/p6/package.json",
      { name := "cached", version := "1.0.0",
        dependencies := [("react", "^18.0.0")] })] }

/-- Options for the cache worlds. -/
def cacheOptions : AnalyzeDepsGeneratorSchema := { projectName := "cached" }

/-- Two files in the *same* directory, each importing `react` with a different
binding. -/
def dupBindWorld : World :=
  { projects := [("dup", { root := "/p8" })],
    manifests := [("/p8/package.json",
      { name := "dup", version := "1.0.0",
        dependencies := [("react", "^17.0.0")] })],
    fs := ["/p8/package.json", "/p8/src/a.ts", "/p8/src/b.ts"],
    sources :=
      [{ path := "/p8/src/a.ts",
         importDecls := [{ specifier := "react", namedImports := ["useState"] }] },
       { path := "/p8/src/b.ts",
         importDecls := [{ specifier := "react", namedImports := ["useEffect"] }] }] }

/-- Options for the duplicate-binding world. -/
def dupBindOptions : AnalyzeDepsGeneratorSchema := { projectName := "dup" }

/-- Two files in *different* directories importing `react`, with an
overlapping binding, so the union is visible. -/
def crossDirWorld : World :=
  { projects := [("cross", { root := "/p8c" })],
    manifests := [("/p8c/package.json",
      { name := "cross", version := "1.0.0",
        dependencies := [("react", "^17.0.0")] })],
    fs := ["/p8c/package.json", "/p8c/src/a.ts", "/p8c/lib/b.ts"],
    sources :=
      [{ path := "/p8c/src/a.ts",
         importDecls := [{ specifier := "react", namedImports := ["useState"] }] },
       { path := "/p8c/lib/b.ts",
         importDecls := [{ specifier := "react",
                           namedImports := ["useState", "useEffect"] }] }] }

/-- Options for the cross-directory world. -/
def crossDirOptions : AnalyzeDepsGeneratorSchema := { projectName := "cross" }

/-- The repository test's first scenario, with the configured output path
`optimized-package.json`. -/
def outputPathWorld : World :=
  { projects := [("test-project", { root := "/apps/test-project" })],
    manifests := [("/apps/test-project/package.json",
      { name := "test-project", version := "1.0.0",
        dependencies := [("react", "^17.0.0")] })],
    fs := ["/apps/test-project/package.json", "/apps/test-project/src/index.ts"],
    sources := [{ path := "/apps/test-project/src/index.ts",
                  importDecls := [{ specifier := "react", namedImports := ["useState"] }] }] }

/-- Options with the configured output path of the repository's tests. -/
def outputPathOptions : AnalyzeDepsGeneratorSchema :=
  { projectName := "test-project", outputPath := some "optimized-package.json" }

/-- A file nested under `src/node_modules` (not the top-level `node_modules`)
importing a declared dependency that no other file references. -/
def nestedNodeModulesWorld : World :=
  { projects := [("nested", { root := "/pn" })],
    manifests := [("/pn/package.json",
      { name := "nested", version := "1.0.0",
        dependencies := [("leftpad", "^1.0.0")] })],
    fs := ["/pn/package.json", "/pn/src/node_modules/evil.ts"],
    sources := [{ path := "/pn/src/node_modules/evil.ts",
                  importDecls := [{ specifier := "leftpad", namedImports := ["pad"] }] }] }

/-- Options for the nested `node_modules` world. -/
def nestedNodeModulesOptions : AnalyzeDepsGeneratorSchema := { projectName := "nested" }

/-! ## Spec-side definitions for refinement comparisons -/

/-- Modelled from the spec's classifier rule 4, for comparison with the code:
the package name recorded for an External specifier is the first two
`/`-separated path segments when the specifier starts with `@`, and the first
path segment otherwise. -/
def specPackageName (s : String) : String :=
  let segs := s.data.splitOn '/'
  if strStartsWith s "@" then
    ⟨List.intercalate ['/'] (segs.take 2)⟩
  else
    ⟨segs.head?.getD s.data⟩

/-- An analysis context over an empty world, for witness instantiations. -/
def emptyCtx : AnalyzeContext :=
  { packageJson := {}, tsConfigPaths := [], workspaceLibs := [],
    tree := {}, tsConfigPath := "/tsconfig.json" }

/-- Context fixture for the alias-resolution witness: the merged alias table
of the layered scenario and the project's tsconfig path. -/
def c4Ctx : AnalyzeContext :=
  { packageJson := {}, tsConfigPaths := [("@a/*", ["/base/inherited/*", "/p/local/*"])],
    workspaceLibs := [], tree := {}, tsConfigPath := "/p/tsconfig.json" }

/-- The module sitting at the inherited alias target. -/
def c4Sf : SourceFile := { path := "/base/inherited/x.ts" }

/-- The same world with every test-named source file removed. -/
def scrubTestFiles (w : World) : World :=
  { w with sources := w.sources.filter (fun sf => !isTestFileName sf.path) }

/-! ## Helper lemmas -/

/-- Reflexivity of the sublist-at-the-front relation. -/
theorem isPrefixRfl (l : List String) : l <+: l := ⟨[], List.append_nil l⟩

/-- A list is an initial segment of itself extended on the right. -/
theorem isPrefixAppend (l t : List String) : l <+: l ++ t := ⟨t, rfl⟩

/-- A `foldl` whose step only ever extends the `analyzedPaths` component keeps
the initial paths as a prefix. -/
theorem foldl_paths_grow {β : Type} (f : StepResult → β → StepResult)
    (h : ∀ s b, s.1.analyzedPaths <+: (f s b).1.analyzedPaths) :
    ∀ (l : List β) (s : StepResult),
      s.1.analyzedPaths <+: (l.foldl f s).1.analyzedPaths
  | [], _ => isPrefixRfl _
  | b :: l, s => (h s b).trans (foldl_paths_grow f h (l := l) (f s b))

/-- Unfolding the final branch of `analyzeImport`: a specifier that starts
with neither `.` nor `@` and whose resolve key is unvisited is recorded in
`externalImports` under the full specifier with the declaration's named
bindings. -/
theorem analyzeImport_external_unvisited (ctx : AnalyzeContext) (fuel : Nat)
    (spec : String) (st : WalkState) (baseDir : String) (decl : Option ModuleRef)
    (proj : Option (List SourceFile)) (bs : List String)
    (hdot : strStartsWith spec "." = false)
    (hat : strStartsWith spec "@" = false)
    (hfresh : st.analyzedPaths.contains (pathResolve baseDir spec) = false)
    (hnames : getNamedImportsOf decl = .ok bs) :
    analyzeImport ctx (fuel + 1) spec st baseDir decl proj =
      ({ st with
          analyzedPaths := st.analyzedPaths ++ [pathResolve baseDir spec],
          analysis := { st.analysis with
            externalImports := recordExternal st.analysis.externalImports spec bs } },
        none) := by
  have hf : pathResolve baseDir spec ∉ st.analyzedPaths := by simpa using hfresh
  simp [analyzeImport, hdot, hat, hf, hnames]

/-- Unfolding the `@`-branch of `analyzeImport` when neither an alias nor a
workspace library matches: the specifier is likewise recorded under the full
specifier. -/
theorem analyzeImport_at_external_unvisited (ctx : AnalyzeContext) (fuel : Nat)
    (spec : String) (st : WalkState) (baseDir : String) (decl : Option ModuleRef)
    (proj : Option (List SourceFile)) (bs : List String)
    (hdot : strStartsWith spec "." = false)
    (hat : strStartsWith spec "@" = true)
    (halias : ctx.tsConfigPaths.find?
        (fun kv => strStartsWith spec (stripSlashStar kv.1)) = none)
    (hlib : ctx.workspaceLibs.find? (fun lib =>
        strStartsWith spec ("@" ++ lib.name ++ "/") || spec == "@" ++ lib.name) = none)
    (hfresh : st.analyzedPaths.contains (pathResolve baseDir spec) = false)
    (hnames : getNamedImportsOf decl = .ok bs) :
    analyzeImport ctx (fuel + 1) spec st baseDir decl proj =
      ({ st with
          analyzedPaths := st.analyzedPaths ++ [pathResolve baseDir spec],
          analysis := { st.analysis with
            externalImports := recordExternal st.analysis.externalImports spec bs } },
        none) := by
  have hf : pathResolve baseDir spec ∉ st.analyzedPaths := by simpa using hfresh
  have hany : ctx.workspaceLibs.any (fun lib =>
      strStartsWith spec ("@" ++ lib.name ++ "/") || spec == "@" ++ lib.name) = false := by
    rw [List.any_eq_false]
    intro lib hmem
    have := List.find?_eq_none.mp hlib lib hmem
    simpa using this
  simp [analyzeImport, hdot, hat, hf, halias, hlib, hany, hnames]

/-- A `.`-specifier leaves the whole analysis record unchanged and raises
nothing: when its key is visited the call returns at the guard, and when it is
fresh the relative branch's body is unreachable (its condition re-tests the
key inserted immediately before). -/
theorem analyzeImport_dot_inert (ctx : AnalyzeContext) (fuel : Nat)
    (spec : String) (st : WalkState) (baseDir : String) (decl : Option ModuleRef)
    (proj : Option (List SourceFile))
    (hdot : strStartsWith spec "." = true) :
    (analyzeImport ctx (fuel + 1) spec st baseDir decl proj).1.analysis = st.analysis ∧
    (analyzeImport ctx (fuel + 1) spec st baseDir decl proj).2 = none := by
  by_cases h : pathResolve baseDir spec ∈ st.analyzedPaths
  · simp [analyzeImport, h]
  · simp [analyzeImport, h, hdot]

/-- A call whose resolve key is already in `analyzedPaths` returns the state
unchanged. -/
theorem analyzeImport_visited_skip (ctx : AnalyzeContext) (fuel : Nat)
    (spec : String) (st : WalkState) (baseDir : String) (decl : Option ModuleRef)
    (proj : Option (List SourceFile))
    (hvis : st.analyzedPaths.contains (pathResolve baseDir spec) = true) :
    analyzeImport ctx (fuel + 1) spec st baseDir decl proj = (st, none) := by
  have h : pathResolve baseDir spec ∈ st.analyzedPaths := by simpa using hvis
  simp [analyzeImport, h]

/-- Insertion via `setAdd` preserves freedom from duplicates. -/
theorem setAdd_nodup (l : List String) (x : String) (h : l.Nodup) :
    (setAdd l x).Nodup := by
  unfold setAdd
  split
  · exact h
  · next hc =>
    have hx : x ∉ l := by simpa using hc
    simpa [List.nodup_append] using ⟨h, hx⟩

/-- Membership in `setAdd`. -/
theorem setAdd_mem (l : List String) (x b : String) :
    b ∈ setAdd l x ↔ b ∈ l ∨ b = x := by
  unfold setAdd
  split
  · next hc =>
    have hx : x ∈ l := by simpa using hc
    constructor
    · exact Or.inl
    · rintro (hb | rfl)
      · exact hb
      · exact hx
  · simp

/-- Folding `setAdd` preserves freedom from duplicates. -/
theorem foldl_setAdd_nodup : ∀ (bs v : List String), v.Nodup →
    (bs.foldl setAdd v).Nodup
  | [], _, h => h
  | b :: bs, v, h => foldl_setAdd_nodup bs (setAdd v b) (setAdd_nodup v b h)

/-- Folding `setAdd` collects exactly the union of the two lists. -/
theorem foldl_setAdd_mem : ∀ (bs v : List String) (b : String),
    b ∈ bs.foldl setAdd v ↔ b ∈ v ∨ b ∈ bs
  | [], v, b => by simp
  | x :: bs, v, b => by
    rw [List.foldl_cons, foldl_setAdd_mem bs (setAdd v x) b, setAdd_mem]
    constructor
    · rintro ((hb | rfl) | hb)
      · exact Or.inl hb
      · exact Or.inr (List.mem_cons_self _ _)
      · exact Or.inr (List.mem_cons_of_mem _ hb)
    · rintro (hb | hb)
      · exact Or.inl (Or.inl hb)
      · rcases List.mem_cons.mp hb with rfl | hb
        · exact Or.inl (Or.inr rfl)
        · exact Or.inr hb

/-! ## Closed counterexample and evaluation theorems -/

/-- C1, counterexample: in the scoped-package scenario the walk records the
external key `@scope/package/submodule` verbatim, so the recorded package name
is the full module specifier and not the first two `/`-separated path segments
that the claim prescribes for scoped packages. -/
theorem C1_no_scoped_collapse_counterexample :
    (runOut (analyzeDepsGenerator scopedWorld [] scopedOptions)).map
      (fun o => o.analysisExternalImports.map Prod.fst) =
      some ["@scope/package", "@scope/package/submodule"] ∧
    specPackageName "@scope/package/submodule" = "@scope/package" ∧
    ("@scope/package/submodule" : String) ≠ "@scope/package" :=
  ⟨rfl, rfl, by decide⟩

/-- C2: the relative-chain scenario of the claim fails on the code.  The entry
imports `./a` and `./a` re-exports from `lodash`, which the manifest declares
at `^4.17.0`; the claim says `lodash` appears in the output dependencies.
Instead the run rejects with a runtime `TypeError` (the re-export declaration,
cast to `ImportDeclaration`, has no `getNamedImports`), so no report exists at
all.  Moreover, even in the variant whose chain ends in a plain import (which
completes only because every file under the project root is enumerated as its
own entry), the walker records nothing in `internalImports` - the relative
branch's body is unreachable because its guard re-tests a key inserted three
lines earlier. -/
theorem C2_relative_chain_fails :
    analyzeDepsGenerator relChainWorld [] relChainOptions =
      .error (.runtime .namedImportsOnExport) ∧
    (List.lookup "/apps/relchain/package.json" relChainWorld.manifests).map
      (fun pj => List.lookup "lodash" pj.dependencies) = some (some "^4.17.0") ∧
    (runOut (analyzeDepsGenerator relChainWorld [] relChainOptions)).map
      (fun o => o.dependencies) = none ∧
    (runOut (analyzeDepsGenerator relChainImportWorld [] relChainOptions)).map
      (fun o => o.analysisInternalImports) = some [] :=
  ⟨rfl, rfl, rfl, rfl⟩

/-- C4, counterexample: with a project tsconfig extending a base file where
both define the alias key `@a/\x2a`, the merged table concatenates the
inherited targets *before* the project-local ones, and resolution substitutes
into the first entry of that list - so the inherited template wins, not the
project-local one as the claim states. -/
theorem C4_inherited_target_wins_counterexample :
    List.lookup "@a/*" (mergeTsConfigs layeredTsWorld ["/p/tsconfig.json"]).1 =
      some ["/base/inherited/*", "/p/local/*"] ∧
    (do
      let ts ← List.lookup "@a/*" (mergeTsConfigs layeredTsWorld ["/p/tsconfig.json"]).1
      let t0 ← ts.head?
      pure (aliasFullPath "/p/tsconfig.json" "@a/*" "@a/x" t0)) =
      some "/base/inherited/x" ∧
    ("/base/inherited/x" : String) ≠ "/p/local/x" :=
  ⟨rfl, rfl, by decide⟩

/-- C5, counterexample: a specifier starting with `/` is recorded in
`externalImports` (under the full specifier) and nowhere in the internal sets,
so it is classified External, contradicting the claim that `/`-specifiers are
RelativeInternal and never External. -/
theorem C5_slash_external_counterexample :
    (runOut (analyzeDepsGenerator slashWorld [] slashOptions)).map
      (fun o => (o.analysisExternalImports, o.analysisInternalImports)) =
      some ([("/abs/mod", ["x"])], []) ∧
    strStartsWith "/abs/mod" "/" = true :=
  ⟨rfl, rfl⟩

/-- C6: a run that starts with the manifest cache already holding this project
root (as any second invocation in the same process does) completes
successfully even though no `package.json` is discoverable at the project root
or workspace root, because the module-level `dependencyCache` satisfies the
lookup before any existence check.  The claim's `exactly when` fails: a fresh
process does throw on the same tree. -/
theorem C6_warm_cache_skips_manifest_check :
    (analyzeDepsGenerator cacheWorldGone
        (runCacheAfter [] (analyzeDepsGenerator cacheWorldV1 [] cacheOptions))
        cacheOptions).isOk = true ∧
    findPackageJson cacheWorldGone "/p6" = .ok none ∧
    analyzeDepsGenerator cacheWorldGone [] cacheOptions =
      .error (.noPackageJson "/p6") :=
  ⟨rfl, rfl, rfl⟩

/-- C7: the module-level `dependencyCache` is never cleared, so a second
invocation on the same project root reports the version ranges of the
*previous* run's manifest: after `package.json` is edited to `react@^18.0.0`,
the warm-cache run still emits `^17.0.0`, while a fresh process emits
`^18.0.0`.  The second call's output therefore depends on a manifest cached by
an earlier call, contradicting the claim. -/
theorem C7_stale_manifest_reused :
    (runOut (analyzeDepsGenerator cacheWorldV2
        (runCacheAfter [] (analyzeDepsGenerator cacheWorldV1 [] cacheOptions))
        cacheOptions)).map (fun o => o.dependencies) =
      some [("react", "^17.0.0")] ∧
    (List.lookup "/p6/package.json" cacheWorldV2.manifests).map
      (fun pj => List.lookup "react" pj.dependencies) = some (some "^18.0.0") ∧
    (runOut (analyzeDepsGenerator cacheWorldV2 [] cacheOptions)).map
      (fun o => o.dependencies) = some [("react", "^18.0.0")] :=
  ⟨rfl, rfl, rfl⟩

/-- C8, counterexample: two import statements of `react` from files in the
same directory resolve to the same visited key, so the second statement
returns early and its binding `useEffect` is lost: the reported list is not
the duplicate-free union of the bindings of all import statements. -/
theorem C8_same_dir_binding_lost_counterexample :
    (runOut (analyzeDepsGenerator dupBindWorld [] dupBindOptions)).map
      (fun o => o.analysisExternalImports) = some [("react", ["useState"])] ∧
    (["useState"] : List String) ≠ ["useState", "useEffect"] :=
  ⟨rfl, by decide⟩

/-- C9: the generator ignores the configured `outputPath` option (which the
schema documents as the location of the generated report and the repository's
own tests read back) and always writes the report to `opdep.json` under the
project root; the report object does have exactly the top-level keys
`dependencies`, `devDependencies` and `analysis`. -/
theorem C9_output_path_ignored :
    (runOut (analyzeDepsGenerator outputPathWorld [] outputPathOptions)).map
      (fun o => o.writtenPath) = some "/apps/test-project/opdep.json" ∧
    outputPathOptions.outputPath = some "optimized-package.json" ∧
    ("/apps/test-project/opdep.json" : String) ≠
      pathJoin "/apps/test-project" "optimized-package.json" ∧
    (runOut (analyzeDepsGenerator outputPathWorld [] outputPathOptions)).map
      (fun o => jsonTopKeys (jsonOfOutput o)) =
      some ["dependencies", "devDependencies", "analysis"] :=
  ⟨rfl, rfl, by decide, rfl⟩

/-- C10, counterexample: a file under `src/node_modules` - a `node_modules`
directory that is not at the top level of the project root - is accepted by
the enumeration globs, and its import of `leftpad` does reach the report,
contradicting the claim that files under `node_modules` directories are
excluded and contribute nothing. -/
theorem C10_nested_node_modules_counterexample :
    underTopLevelDir "/pn/src" "node_modules" "/pn/src/node_modules/evil.ts" = true ∧
    (enumerateSources nestedNodeModulesWorld "/pn").map (fun sf => sf.path) =
      ["/pn/src/node_modules/evil.ts"] ∧
    (runOut (analyzeDepsGenerator nestedNodeModulesWorld [] nestedNodeModulesOptions)).map
      (fun o => o.dependencies) = some [("leftpad", "^1.0.0")] :=
  ⟨rfl, rfl, rfl⟩

/-! ## Amended claim theorems -/

/-- C1 (amended): every external recording stores the *full* module specifier
as the `externalImports` key - both for bare specifiers and for unmatched
`@`-specifiers - and in the scoped scenario the output dependencies map still
equals exactly `@scope/package ↦ ^1.0.0`, because the submodule key is not a
manifest key and the reducer drops it. -/
theorem C1_external_full_specifier :
    (∀ (ctx : AnalyzeContext) (fuel : Nat) (spec : String) (st : WalkState)
        (baseDir : String) (decl : Option ModuleRef)
        (proj : Option (List SourceFile)) (bs : List String),
        strStartsWith spec "." = false →
        strStartsWith spec "@" = false →
        st.analyzedPaths.contains (pathResolve baseDir spec) = false →
        getNamedImportsOf decl = .ok bs →
        (analyzeImport ctx (fuel + 1) spec st baseDir decl proj).1.analysis.externalImports =
          recordExternal st.analysis.externalImports spec bs) ∧
    (∀ (ctx : AnalyzeContext) (fuel : Nat) (spec : String) (st : WalkState)
        (baseDir : String) (decl : Option ModuleRef)
        (proj : Option (List SourceFile)) (bs : List String),
        strStartsWith spec "." = false →
        strStartsWith spec "@" = true →
        ctx.tsConfigPaths.find? (fun kv => strStartsWith spec (stripSlashStar kv.1)) = none →
        ctx.workspaceLibs.find? (fun lib =>
          strStartsWith spec ("@" ++ lib.name ++ "/") || spec == "@" ++ lib.name) = none →
        st.analyzedPaths.contains (pathResolve baseDir spec) = false →
        getNamedImportsOf decl = .ok bs →
        (analyzeImport ctx (fuel + 1) spec st baseDir decl proj).1.analysis.externalImports =
          recordExternal st.analysis.externalImports spec bs) ∧
    (runOut (analyzeDepsGenerator scopedWorld [] scopedOptions)).map
      (fun o => o.dependencies) = some [("@scope/package", "^1.0.0")] := by
  refine ⟨?_, ?_, rfl⟩
  · intro ctx fuel spec st baseDir decl proj bs hdot hat hfresh hnames
    rw [analyzeImport_external_unvisited ctx fuel spec st baseDir decl proj bs
      hdot hat hfresh hnames]
  · intro ctx fuel spec st baseDir decl proj bs hdot hat halias hlib hfresh hnames
    rw [analyzeImport_at_external_unvisited ctx fuel spec st baseDir decl proj bs
      hdot hat halias hlib hfresh hnames]

/-- Witness for `C1_external_full_specifier` at concrete inputs. -/
theorem C1_external_full_specifier_witness :
    (analyzeImport emptyCtx 1 "react" {} "/w" none none).1.analysis.externalImports =
      recordExternal [] "react" [] ∧
    (analyzeImport emptyCtx 1 "@scope/pkg" {} "/w" none none).1.analysis.externalImports =
      recordExternal [] "@scope/pkg" [] :=
  ⟨C1_external_full_specifier.1 emptyCtx 0 "react" {} "/w" none none []
      (by decide) (by decide) (by decide) rfl,
    C1_external_full_specifier.2.1 emptyCtx 0 "@scope/pkg" {} "/w" none none []
      (by decide) (by decide) rfl rfl (by decide) rfl⟩

/-- C5 (amended): a specifier starting with `.` is routed to the relative
branch and is never recorded as External (its `externalImports` are left
unchanged - in fact the branch's body is dead, so the whole analysis record is
unchanged), while a specifier starting with `/` matches neither the `.` nor
the `@` test and is recorded as External under the full specifier. -/
theorem C5_dot_internal_slash_external :
    (∀ (ctx : AnalyzeContext) (fuel : Nat) (spec : String) (st : WalkState)
        (baseDir : String) (decl : Option ModuleRef)
        (proj : Option (List SourceFile)),
        strStartsWith spec "." = true →
        (analyzeImport ctx (fuel + 1) spec st baseDir decl proj).1.analysis.externalImports =
          st.analysis.externalImports) ∧
    (∀ (ctx : AnalyzeContext) (fuel : Nat) (spec : String) (st : WalkState)
        (baseDir : String) (decl : Option ModuleRef)
        (proj : Option (List SourceFile)) (bs : List String),
        strStartsWith spec "/" = true →
        strStartsWith spec "." = false →
        strStartsWith spec "@" = false →
        st.analyzedPaths.contains (pathResolve baseDir spec) = false →
        getNamedImportsOf decl = .ok bs →
        analyzeImport ctx (fuel + 1) spec st baseDir decl proj =
          ({ st with
              analyzedPaths := st.analyzedPaths ++ [pathResolve baseDir spec],
              analysis := { st.analysis with
                externalImports := recordExternal st.analysis.externalImports spec bs } },
            none)) := by
  constructor
  · intro ctx fuel spec st baseDir decl proj hdot
    rw [(analyzeImport_dot_inert ctx fuel spec st baseDir decl proj hdot).1]
  · intro ctx fuel spec st baseDir decl proj bs _ hdot hat hfresh hnames
    exact analyzeImport_external_unvisited ctx fuel spec st baseDir decl proj bs
      hdot hat hfresh hnames

/-- Witness for `C5_dot_internal_slash_external` at concrete inputs. -/
theorem C5_dot_internal_slash_external_witness :
    (analyzeImport emptyCtx 1 "./a" {} "/w" none none).1.analysis.externalImports =
      ({} : WalkState).analysis.externalImports ∧
    analyzeImport emptyCtx 1 "/abs/mod" {} "/w" none none =
      ({ ({} : WalkState) with
          analyzedPaths := [pathResolve "/w" "/abs/mod"],
          analysis := { ({} : WalkState).analysis with
            externalImports := recordExternal [] "/abs/mod" [] } },
        none) :=
  ⟨C5_dot_internal_slash_external.1 emptyCtx 0 "./a" {} "/w" none none (by decide),
    C5_dot_internal_slash_external.2 emptyCtx 0 "/abs/mod" {} "/w" none none []
      (by decide) (by decide) (by decide) (by decide) rfl⟩

/-- C8 (amended): binding names of the same external package are unioned
without duplicates across import statements whose visited key (the specifier
resolved against the importing file's directory) is new - as in the
cross-directory scenario, where the overlapping binding `useState` appears
once and `useEffect` is added - while a statement whose resolved key was
already visited returns early and contributes nothing.  The `Set` semantics of
the per-package binding collection is duplicate-free and loses no element. -/
theorem C8_union_for_fresh_keys :
    (runOut (analyzeDepsGenerator crossDirWorld [] crossDirOptions)).map
      (fun o => o.analysisExternalImports) =
      some [("react", ["useState", "useEffect"])] ∧
    (∀ (bs v : List String), v.Nodup →
      (bs.foldl setAdd v).Nodup ∧ ∀ b, b ∈ bs.foldl setAdd v ↔ b ∈ v ∨ b ∈ bs) ∧
    (∀ (ctx : AnalyzeContext) (fuel : Nat) (spec : String) (st : WalkState)
        (baseDir : String) (decl : Option ModuleRef)
        (proj : Option (List SourceFile)),
        st.analyzedPaths.contains (pathResolve baseDir spec) = true →
        analyzeImport ctx (fuel + 1) spec st baseDir decl proj = (st, none)) := by
  refine ⟨rfl, ?_, ?_⟩
  · intro bs v h
    exact ⟨foldl_setAdd_nodup bs v h, foldl_setAdd_mem bs v⟩
  · intro ctx fuel spec st baseDir decl proj hvis
    exact analyzeImport_visited_skip ctx fuel spec st baseDir decl proj hvis

/-- Witness for `C8_union_for_fresh_keys` at concrete inputs. -/
theorem C8_union_for_fresh_keys_witness :
    ((["useState", "useEffect", "useState"].foldl setAdd ["useState"]).Nodup ∧
      ∀ b, b ∈ ["useState", "useEffect", "useState"].foldl setAdd ["useState"] ↔
        b ∈ ["useState"] ∨ b ∈ ["useState", "useEffect", "useState"]) ∧
    analyzeImport emptyCtx 1 "react"
        { analyzedPaths := ["/w/react"] } "/w" none none =
      ({ analyzedPaths := ["/w/react"] }, none) :=
  ⟨C8_union_for_fresh_keys.2.1 ["useState", "useEffect", "useState"] ["useState"]
      (by decide),
    C8_union_for_fresh_keys.2.2 emptyCtx 0 "react"
      { analyzedPaths := ["/w/react"] } "/w" none none (by decide)⟩

/-! ## Visited-set monotonicity and the depth bound -/

/-- One loop iteration only ever extends the visited set. -/
theorem stepRef_paths_grow
    (go : String → WalkState → String → Option ModuleRef → Option (List SourceFile) → StepResult)
    (h : ∀ s t bd d p, t.analyzedPaths <+: (go s t bd d p).1.analyzedPaths)
    (bd : String) (proj : List SourceFile) :
    ∀ (acc : StepResult) (r : ModuleRef),
      acc.1.analyzedPaths <+: (stepRef go bd proj acc r).1.analyzedPaths := by
  rintro ⟨t, e⟩ r
  cases e with
  | some e => simp [stepRef]
  | none => simpa [stepRef] using h r.specifier t bd (some r) (some proj)

/-- Exploring a resolved module only ever extends the visited set. -/
theorem exploreModule_paths_grow
    (go : String → WalkState → String → Option ModuleRef → Option (List SourceFile) → StepResult)
    (h : ∀ s t bd d p, t.analyzedPaths <+: (go s t bd d p).1.analyzedPaths)
    (projFiles : List SourceFile) (sf : SourceFile) (st : WalkState) :
    st.analyzedPaths <+: (exploreModule go projFiles sf st).1.analyzedPaths := by
  unfold exploreModule
  have hstep := stepRef_paths_grow go h (pathDirname sf.path) projFiles
  have h1 := foldl_paths_grow _ hstep sf.importDecls (st, none)
  have h2 := foldl_paths_grow _ hstep sf.exportDecls
    (sf.importDecls.foldl (stepRef go (pathDirname sf.path) projFiles) (st, none))
  have h3 := foldl_paths_grow _ hstep (sf.exportDecls.filter fun e => e.namespaceExport)
    (sf.exportDecls.foldl (stepRef go (pathDirname sf.path) projFiles)
      (sf.importDecls.foldl (stepRef go (pathDirname sf.path) projFiles) (st, none)))
  exact (h1.trans h2).trans h3

/-- Expanding a workspace library only ever extends the visited set. -/
theorem exploreLibFiles_paths_grow
    (go : String → WalkState → String → Option ModuleRef → Option (List SourceFile) → StepResult)
    (h : ∀ s t bd d p, t.analyzedPaths <+: (go s t bd d p).1.analyzedPaths)
    (libFiles : List SourceFile) (start : StepResult) :
    start.1.analyzedPaths <+: (exploreLibFiles go libFiles start).1.analyzedPaths := by
  unfold exploreLibFiles
  apply foldl_paths_grow
  rintro ⟨t, e⟩ sf
  cases e with
  | some e => simp
  | none =>
    simp only
    have hstep := stepRef_paths_grow go h (pathDirname sf.path) libFiles
    have h1 := foldl_paths_grow _ hstep sf.importDecls ((t, none) : StepResult)
    have h2 := foldl_paths_grow _ hstep sf.exportDecls
      (sf.importDecls.foldl (stepRef go (pathDirname sf.path) libFiles) (t, none))
    exact h1.trans h2

/-- Transitivity-shaped variant for use under `apply`. -/
theorem exploreModule_paths_grow_from
    (go : String → WalkState → String → Option ModuleRef → Option (List SourceFile) → StepResult)
    (h : ∀ s t bd d p, t.analyzedPaths <+: (go s t bd d p).1.analyzedPaths)
    (projFiles : List SourceFile) (sf : SourceFile) (st : WalkState)
    (l : List String) (hl : l <+: st.analyzedPaths) :
    l <+: (exploreModule go projFiles sf st).1.analyzedPaths :=
  hl.trans (exploreModule_paths_grow go h projFiles sf st)

/-- Transitivity-shaped variant for use under `apply`. -/
theorem exploreLibFiles_paths_grow_from
    (go : String → WalkState → String → Option ModuleRef → Option (List SourceFile) → StepResult)
    (h : ∀ s t bd d p, t.analyzedPaths <+: (go s t bd d p).1.analyzedPaths)
    (libFiles : List SourceFile) (start : StepResult)
    (l : List String) (hl : l <+: start.1.analyzedPaths) :
    l <+: (exploreLibFiles go libFiles start).1.analyzedPaths :=
  hl.trans (exploreLibFiles_paths_grow go h libFiles start)

/-- On an unvisited key, `analyzeImport` first appends the key and every
branch afterwards only extends the visited set further: the key is in place
before any recursion happens. -/
theorem analyzeImport_succ_grow_aux (ctx : AnalyzeContext) (fuel : Nat)
    (hgo : ∀ s t bd d p,
      t.analyzedPaths <+: (analyzeImport ctx fuel s t bd d p).1.analyzedPaths)
    (spec : String) (st : WalkState) (baseDir : String) (decl : Option ModuleRef)
    (proj : Option (List SourceFile))
    (hf : pathResolve baseDir spec ∉ st.analyzedPaths) :
    (st.analyzedPaths ++ [pathResolve baseDir spec]) <+:
      (analyzeImport ctx (fuel + 1) spec st baseDir decl proj).1.analyzedPaths := by
  simp only [analyzeImport]
  rw [if_neg (by simpa using hf)]
  split
  · rw [if_neg (by simp)]
  · split
    · split
      · split
        · exact isPrefixRfl _
        · split
          · exact isPrefixRfl _
          · split
            · exact isPrefixRfl _
            · apply exploreModule_paths_grow_from _ hgo
              exact isPrefixRfl _
      · split
        · split
          · simp only
            apply exploreLibFiles_paths_grow_from _ hgo
            exact isPrefixRfl _
          · apply exploreLibFiles_paths_grow_from _ hgo
            exact isPrefixRfl _
        · split
          · exact isPrefixRfl _
          · split
            · exact isPrefixRfl _
            · exact isPrefixRfl _
    · split
      · exact isPrefixRfl _
      · exact isPrefixRfl _

/-- The visited set of `analyzeImport` only ever grows (the initial set is a
prefix of the final one), whatever the fuel (= remaining depth budget). -/
theorem analyzeImport_paths_grow (ctx : AnalyzeContext) :
    ∀ (fuel : Nat) (spec : String) (st : WalkState) (baseDir : String)
      (decl : Option ModuleRef) (proj : Option (List SourceFile)),
      st.analyzedPaths <+:
        (analyzeImport ctx fuel spec st baseDir decl proj).1.analyzedPaths := by
  intro fuel
  induction fuel with
  | zero => intro spec st baseDir decl proj; simp [analyzeImport]
  | succ fuel ih =>
    intro spec st baseDir decl proj
    by_cases hvis : pathResolve baseDir spec ∈ st.analyzedPaths
    · simp [analyzeImport, hvis]
    · exact (isPrefixAppend _ _).trans
        (analyzeImport_succ_grow_aux ctx fuel ih spec st baseDir decl proj hvis)

/-- C3: the walk terminates on every module graph, cyclic ones included.  The
visited set only grows (initial paths stay a prefix of the final ones); on an
unvisited module the path-key is inserted before any recursion into the
module's references (the extended set `paths ++ [key]` is already a prefix of
the final set); a branch whose depth exceeds `MAX_RECURSION_DEPTH = 50`
(i.e. whose fuel `51 - depth` is exhausted) logs a warning and returns the
state otherwise unchanged, raising no error; and the concrete alias-cycle
world (`a.ts` imports `@app/b`, `b.ts` imports `@app/a`) completes
successfully. -/
theorem C3_termination_and_visited_bounds :
    (∀ (ctx : AnalyzeContext) (fuel : Nat) (spec : String) (st : WalkState)
        (baseDir : String) (decl : Option ModuleRef) (proj : Option (List SourceFile)),
        st.analyzedPaths <+:
          (analyzeImport ctx fuel spec st baseDir decl proj).1.analyzedPaths) ∧
    (∀ (ctx : AnalyzeContext) (fuel : Nat) (spec : String) (st : WalkState)
        (baseDir : String) (decl : Option ModuleRef) (proj : Option (List SourceFile)),
        pathResolve baseDir spec ∉ st.analyzedPaths →
        (st.analyzedPaths ++ [pathResolve baseDir spec]) <+:
          (analyzeImport ctx (fuel + 1) spec st baseDir decl proj).1.analyzedPaths) ∧
    (∀ (ctx : AnalyzeContext) (spec : String) (st : WalkState) (baseDir : String)
        (decl : Option ModuleRef) (proj : Option (List SourceFile)),
        analyzeImport ctx 0 spec st baseDir decl proj =
          ({ st with warnings := st.warnings ++
              ["Max recursion depth (50) exceeded: " ++ spec] }, none)) ∧
    (analyzeDepsGenerator aliasCycleWorld [] aliasCycleOptions).isOk = true := by
  refine ⟨?_, ?_, ?_, rfl⟩
  · intro ctx fuel spec st baseDir decl proj
    exact analyzeImport_paths_grow ctx fuel spec st baseDir decl proj
  · intro ctx fuel spec st baseDir decl proj hf
    exact analyzeImport_succ_grow_aux ctx fuel
      (analyzeImport_paths_grow ctx fuel) spec st baseDir decl proj hf
  · intro ctx spec st baseDir decl proj
    rfl

/-- Witness for `C3_termination_and_visited_bounds` at concrete inputs. -/
theorem C3_termination_and_visited_bounds_witness :
    (([] : List String) ++ [pathResolve "/w" "react"]) <+:
      (analyzeImport emptyCtx 1 "react" {} "/w" none none).1.analyzedPaths :=
  C3_termination_and_visited_bounds.2.1 emptyCtx 0 "react" {} "/w" none none
    (by decide)

/-! ## Alias-table merge order -/

/-- Folding `setAdd` only appends, so the accumulator stays a prefix. -/
theorem foldl_setAdd_grows : ∀ (l acc : List String), acc <+: l.foldl setAdd acc
  | [], _ => isPrefixRfl _
  | x :: l, acc => by
    have h1 : acc <+: setAdd acc x := by
      unfold setAdd
      split
      · exact isPrefixRfl _
      · exact isPrefixAppend _ _
    exact h1.trans (foldl_setAdd_grows l (setAdd acc x))

/-- De-duplication keeps the first element first. -/
theorem dedupKeepFirst_cons_head (x : String) (l : List String) :
    (dedupKeepFirst (x :: l)).head? = some x := by
  unfold dedupKeepFirst
  rw [List.foldl_cons]
  have hx : setAdd [] x = [x] := by unfold setAdd; simp
  rw [hx]
  rcases foldl_setAdd_grows l [x] with ⟨t, ht⟩
  rw [← ht]
  rfl

/-- Merging a single configuration layer that extends a base file: when both
define the alias key `k`, the merged entry concatenates the base's resolved
targets (first) with the layer's own resolved targets (second), then
de-duplicates. -/
theorem mergeTsConfigs_single_extends (w : World) (f ext : String)
    (cfg base : TsConfigRaw) (k : String) (bts ots : List String)
    (h1 : List.lookup f w.tsconfigs = some (.parsed cfg))
    (h2 : cfg.extendsRef = some ext)
    (h3 : treeExists w (pathResolve (pathDirname f) ext) = true)
    (h4 : List.lookup (pathResolve (pathDirname f) ext) w.tsconfigs = some (.parsed base))
    (h5 : base.paths = some [(k, bts)])
    (h6 : cfg.paths = some [(k, ots)]) :
    (mergeTsConfigs w [f]).1 =
      [(k, dedupKeepFirst
        (resolveTargets (pathDirname (pathResolve (pathDirname f) ext)) bts ++
         resolveTargets (pathDirname f) ots))] := by
  simp [mergeTsConfigs, processTsConfigFile, appendPaths, h1, h2, h3, h4, h5, h6]

/-- Unfolding the alias branch of `analyzeImport` when the matched alias entry
has first target `t0` and the resolved module exists: the branch records the
specifier in `internalAliasImports` and recurses into the module located via
`aliasFullPath _ _ _ t0` - the *first* configured target template. -/
theorem analyzeImport_alias_uses_first_target (ctx : AnalyzeContext) (fuel : Nat)
    (spec : String) (st : WalkState) (baseDir : String) (decl : Option ModuleRef)
    (projFiles : List SourceFile) (aliasKey t0 : String) (ts : List String)
    (sf : SourceFile)
    (hdot : strStartsWith spec "." = false)
    (hat : strStartsWith spec "@" = true)
    (halias : ctx.tsConfigPaths.find?
        (fun kv => strStartsWith spec (stripSlashStar kv.1)) = some (aliasKey, t0 :: ts))
    (hfresh : st.analyzedPaths.contains (pathResolve baseDir spec) = false)
    (hsf : getSourceFile projFiles
        (aliasFullPath ctx.tsConfigPath aliasKey spec t0 ++ ".ts") = some sf) :
    analyzeImport ctx (fuel + 1) spec st baseDir decl (some projFiles) =
      exploreModule (fun s t bd d p => analyzeImport ctx fuel s t bd d p) projFiles sf
        { st with
            analyzedPaths := st.analyzedPaths ++ [pathResolve baseDir spec],
            analysis := { st.analysis with
              internalAliasImports := setAdd st.analysis.internalAliasImports spec } } := by
  have hf : pathResolve baseDir spec ∉ st.analyzedPaths := by simpa using hfresh
  simp [analyzeImport, hdot, hat, halias, hf, hsf, Option.orElse]

/-- C4 (amended): a layer's extends target *is* merged before the layer's own
paths entries are applied, but for an alias key defined in both layers the
target lists are concatenated - inherited targets first, then the
project-local ones, de-duplicated - rather than overwritten; and the walk's
resolution substitutes the wildcard remainder into the *first* target of the
merged entry, which is therefore the inherited template, not the project-local
one. -/
theorem C4_extends_merge_order_and_first_target :
    (∀ (w : World) (f ext : String) (cfg base : TsConfigRaw) (k : String)
        (bts ots : List String),
        List.lookup f w.tsconfigs = some (.parsed cfg) →
        cfg.extendsRef = some ext →
        treeExists w (pathResolve (pathDirname f) ext) = true →
        List.lookup (pathResolve (pathDirname f) ext) w.tsconfigs = some (.parsed base) →
        base.paths = some [(k, bts)] →
        cfg.paths = some [(k, ots)] →
        (mergeTsConfigs w [f]).1 =
          [(k, dedupKeepFirst
            (resolveTargets (pathDirname (pathResolve (pathDirname f) ext)) bts ++
             resolveTargets (pathDirname f) ots))]) ∧
    (∀ (x : String) (l : List String), (dedupKeepFirst (x :: l)).head? = some x) ∧
    (∀ (ctx : AnalyzeContext) (fuel : Nat) (spec : String) (st : WalkState)
        (baseDir : String) (decl : Option ModuleRef) (projFiles : List SourceFile)
        (aliasKey t0 : String) (ts : List String) (sf : SourceFile),
        strStartsWith spec "." = false →
        strStartsWith spec "@" = true →
        ctx.tsConfigPaths.find?
          (fun kv => strStartsWith spec (stripSlashStar kv.1)) = some (aliasKey, t0 :: ts) →
        st.analyzedPaths.contains (pathResolve baseDir spec) = false →
        getSourceFile projFiles
          (aliasFullPath ctx.tsConfigPath aliasKey spec t0 ++ ".ts") = some sf →
        analyzeImport ctx (fuel + 1) spec st baseDir decl (some projFiles) =
          exploreModule (fun s t bd d p => analyzeImport ctx fuel s t bd d p) projFiles sf
            { st with
                analyzedPaths := st.analyzedPaths ++ [pathResolve baseDir spec],
                analysis := { st.analysis with
                  internalAliasImports := setAdd st.analysis.internalAliasImports spec } }) := by
  refine ⟨?_, dedupKeepFirst_cons_head, ?_⟩
  · intro w f ext cfg base k bts ots h1 h2 h3 h4 h5 h6
    exact mergeTsConfigs_single_extends w f ext cfg base k bts ots h1 h2 h3 h4 h5 h6
  · intro ctx fuel spec st baseDir decl projFiles aliasKey t0 ts sf hdot hat halias hfresh hsf
    exact analyzeImport_alias_uses_first_target ctx fuel spec st baseDir decl projFiles
      aliasKey t0 ts sf hdot hat halias hfresh hsf

/-- Witness for `C4_extends_merge_order_and_first_target` at the layered
scenario. -/
theorem C4_extends_merge_order_witness :
    (mergeTsConfigs layeredTsWorld ["/p/tsconfig.json"]).1 =
      [("@a/*", dedupKeepFirst
        (resolveTargets
          (pathDirname (pathResolve (pathDirname "/p/tsconfig.json") "/base/tsconfig.base.json"))
          ["/base/inherited/*"] ++
         resolveTargets (pathDirname "/p/tsconfig.json") ["/p/local/*"]))] ∧
    (dedupKeepFirst ["/base/inherited/*", "/p/local/*"]).head? = some "/base/inherited/*" ∧
    analyzeImport c4Ctx 1 "@a/x" {} "/src" none (some [c4Sf]) =
      exploreModule (fun s t bd d p => analyzeImport c4Ctx 0 s t bd d p) [c4Sf] c4Sf
        { ({} : WalkState) with
            analyzedPaths := [pathResolve "/src" "@a/x"],
            analysis := { ({} : WalkState).analysis with
              internalAliasImports := setAdd [] "@a/x" } } :=
  ⟨C4_extends_merge_order_and_first_target.1 layeredTsWorld "/p/tsconfig.json"
      "/base/tsconfig.base.json"
      { extendsRef := some "/base/tsconfig.base.json",
        paths := some [("@a/*", ["/p/local/*"])] }
      { paths := some [("@a/*", ["/base/inherited/*"])] } "@a/*"
      ["/base/inherited/*"] ["/p/local/*"] rfl rfl rfl rfl rfl rfl,
    C4_extends_merge_order_and_first_target.2.1 "/base/inherited/*" ["/p/local/*"],
    C4_extends_merge_order_and_first_target.2.2 c4Ctx 0 "@a/x" {} "/src" none [c4Sf]
      "@a/*" "/base/inherited/*" ["/p/local/*"] c4Sf
      (by decide) (by decide) rfl (by decide) rfl⟩

/-! ## Entry-module enumeration exclusions -/

/-- Removing test-named sources does not change the merged tsconfig table. -/
theorem mergeTsConfigs_scrub (w : World) (files : List String) :
    mergeTsConfigs (scrubTestFiles w) files = mergeTsConfigs w files := rfl

/-- Removing test-named sources does not change the directory walk. -/
theorem searchInDirectory_scrub (w : World) :
    ∀ (fuel : Nat) (dir : String),
      searchInDirectory (scrubTestFiles w) fuel dir = searchInDirectory w fuel dir := by
  intro fuel
  induction fuel with
  | zero => intro dir; rfl
  | succ fuel ih =>
    intro dir
    simp only [searchInDirectory]
    congr 1
    funext acc entry
    rw [ih]
    rfl

/-- Removing test-named sources does not change tsconfig discovery. -/
theorem findAllTsConfigFiles_scrub (w : World) (root : String) :
    findAllTsConfigFiles (scrubTestFiles w) root = findAllTsConfigFiles w root := by
  unfold findAllTsConfigFiles
  rw [searchInDirectory_scrub]
  rfl

/-- Test-named files are already rejected by the enumeration globs, so
filtering them away first changes nothing. -/
theorem enumerateSources_scrub (w : World) (root : String) :
    enumerateSources (scrubTestFiles w) root = enumerateSources w root := by
  show (w.sources.filter (fun sf => !isTestFileName sf.path)).filter
      (fun sf => matchesSourceGlobs root sf.path) =
    w.sources.filter (fun sf => matchesSourceGlobs root sf.path)
  rw [List.filter_filter]
  congr 1
  funext sf
  cases h : isTestFileName sf.path with
  | true => simp [matchesSourceGlobs, h]
  | false => simp [h]

/-- The walk reads the world's sources only through `enumerateSources`, so it
cannot tell the scrubbed world apart. -/
theorem analyzeImport_scrub (pj : PackageJson) (tsp : List (String × List String))
    (wl : List WorkspaceLibrary) (w : World) (tscp : String) :
    ∀ (fuel : Nat) (spec : String) (st : WalkState) (baseDir : String)
      (decl : Option ModuleRef) (proj : Option (List SourceFile)),
      analyzeImport ⟨pj, tsp, wl, scrubTestFiles w, tscp⟩ fuel spec st baseDir decl proj =
      analyzeImport ⟨pj, tsp, wl, w, tscp⟩ fuel spec st baseDir decl proj := by
  intro fuel
  induction fuel with
  | zero => intro spec st baseDir decl proj; rfl
  | succ fuel ih =>
    intro spec st baseDir decl proj
    have hgo : (fun s t bd d p =>
        analyzeImport ⟨pj, tsp, wl, scrubTestFiles w, tscp⟩ fuel s t bd d p) =
        (fun s t bd d p => analyzeImport ⟨pj, tsp, wl, w, tscp⟩ fuel s t bd d p) := by
      funext s t bd d p
      exact ih s t bd d p
    simp only [analyzeImport, hgo, enumerateSources_scrub, mergeTsConfigs_scrub,
      findAllTsConfigFiles_scrub]

/-- Projection helper for the scrubbed world. -/
theorem worldProjects_scrub (w : World) :
    (scrubTestFiles w).projects = w.projects := rfl

/-- The manifest lookup ignores sources. -/
theorem analyzeProjectDependencies_scrub (w : World)
    (cache : List (String × PackageJson)) (root : String) :
    analyzeProjectDependencies (scrubTestFiles w) cache root =
      analyzeProjectDependencies w cache root := rfl

/-- The registry scan ignores sources. -/
theorem getWorkspaceLibraries_scrub (w : World) :
    getWorkspaceLibraries (scrubTestFiles w) = getWorkspaceLibraries w := rfl

/-- A full generator run is unchanged when every test-named source file is
removed from the world. -/
theorem analyzeDepsGenerator_scrub (w : World) (cache : List (String × PackageJson))
    (options : AnalyzeDepsGeneratorSchema) :
    analyzeDepsGenerator (scrubTestFiles w) cache options =
      analyzeDepsGenerator w cache options := by
  unfold analyzeDepsGenerator
  simp only [worldProjects_scrub, analyzeProjectDependencies_scrub,
    findAllTsConfigFiles_scrub, mergeTsConfigs_scrub, enumerateSources_scrub,
    getWorkspaceLibraries_scrub, analyzeImport_scrub]

/-- C10 (amended): every enumerated entry module has a non-test name and lies
outside the top-level `node_modules`, `dist` and `build` directories of the
enumeration root (the name patterns exclude at any depth, the directory globs
only at the top level of the root); and an import occurring only in a
test-named file contributes nothing - deleting all test-named files leaves
every run of the generator, cache state included, unchanged. -/
theorem C10_exclusions_and_test_files_inert :
    (∀ (w : World) (root : String) (sf : SourceFile), sf ∈ enumerateSources w root →
      isTestFileName sf.path = false ∧
      underTopLevelDir root "node_modules" sf.path = false ∧
      underTopLevelDir root "dist" sf.path = false ∧
      underTopLevelDir root "build" sf.path = false) ∧
    (∀ (w : World) (cache : List (String × PackageJson))
        (options : AnalyzeDepsGeneratorSchema),
      analyzeDepsGenerator (scrubTestFiles w) cache options =
        analyzeDepsGenerator w cache options) := by
  constructor
  · intro w root sf hmem
    unfold enumerateSources at hmem
    rw [List.mem_filter] at hmem
    obtain ⟨-, h⟩ := hmem
    unfold matchesSourceGlobs at h
    simp only [Bool.and_eq_true, Bool.not_eq_true'] at h
    exact ⟨h.2, h.1.1.1.2, h.1.1.2, h.1.2⟩
  · exact analyzeDepsGenerator_scrub

/-- Witness for `C10_exclusions_and_test_files_inert` at a concrete world. -/
theorem C10_exclusions_witness :
    isTestFileName "/q/a.ts" = false ∧
    underTopLevelDir "/q" "node_modules" "/q/a.ts" = false ∧
    underTopLevelDir "/q" "dist" "/q/a.ts" = false ∧
    underTopLevelDir "/q" "build" "/q/a.ts" = false :=
  C10_exclusions_and_test_files_inert.1 { sources := [{ path := "/q/a.ts" }] } "/q"
    { path := "/q/a.ts" } (by decide)

end Opdep
